import Mathlib

/-!
Shallow embedding of the user-account controller.

This file embeds `src/controllers/user.controller.js` of the
Backend-Learner repository: a user-account backend (registration, login,
logout, token refresh, password change, channel-profile aggregation) in
front of a document store.

Modelling conventions:
* Machine state is a `DB`: the user collection, the subscription
  collection, an id allocator for created documents, and a counter that
  stands for the signing timestamp of freshly minted tokens (two tokens
  signed at different moments differ).
* JavaScript `undefined` is `Option.none`; a document field that was never
  written is `none` (documents in the store are schemaless, so both the
  `userName` and the `username` key appear as separate optional fields).
* Fallible JS evaluation (a thrown `TypeError`) and thrown `ApiError`s are
  explicit constructors in each handler's outcome type.
* `async` calls that the source `await`s are sequenced directly; the two
  places where the source omits `await` are modelled where they occur and
  documented there.
* External collaborators absent from the sources (the Cloudinary utility,
  the JWT library, the password-hash check of the user model) are modelled
  from the spec's boundary descriptions; each such definition says so.
-/

namespace UserController

/-- A signed bearer token. Modelled from the spec: the token-signing
boundary is `sign(claims, secret, ttl) -> token`, `verify(token, secret)
-> claims | failure`; the model file holding `generateAccessToken` /
`generateRefreshToken` is not part of the sources. A token records the
subject id, an issuance nonce standing for the signing timestamp (`iat`),
and the secret it was signed with; expiry is not modelled. Two tokens are
"byte-exactly equal" iff they are structurally equal. -/
structure Token where
  uid : Nat
  nonce : Nat
  secret : String
  deriving DecidableEq, Repr

/-- Modelled from the spec: `process.env.REFRESH_TOKEN_SECRET`, the
server-held secret for refresh tokens (environment configuration, not in
the sources). -/
def REFRESH_TOKEN_SECRET : String := "refresh-secret"

/-- Modelled from the spec: the corresponding secret for access tokens. -/
def ACCESS_TOKEN_SECRET : String := "access-secret"

/-- The claims carried by a refresh token: the user id (`_id`). -/
structure Claims where
  _id : Nat
  deriving DecidableEq, Repr

/-- Modelled from the spec: `verify(token, secret) -> claims | failure`
(`jwt.verify`). Verification succeeds iff the token was signed with the
given secret; on success it returns the decoded claims. -/
def jwtVerify (t : Token) (secret : String) : Option Claims :=
  if t.secret = secret then some ⟨t.uid⟩ else none

/-- A user document as this controller writes and reads it. Registration
(`User.create`, line 128) writes the key `userName`, while the duplicate
query (line 104) and the profile aggregation (line 322) read the key
`username`; the store is schemaless from the controller's point of view,
so both keys are carried as separate optional fields. -/
structure UserDoc where
  _id : Nat
  fullName : Option String := none
  userName : Option String := none
  username : Option String := none
  email : Option String := none
  password : Option String := none
  avatar : Option String := none
  coverImage : Option String := none
  refreshToken : Option Token := none
  deriving DecidableEq, Repr

/-- A subscription edge: `channel` is the subscribed-to user id,
`subscriber` the subscribing user id. -/
structure SubDoc where
  channel : Nat
  subscriber : Nat
  deriving DecidableEq, Repr

/-- The store state threaded through the handlers. -/
structure DB where
  users : List UserDoc := []
  subs : List SubDoc := []
  nextId : Nat := 0
  tokenCtr : Nat := 0
  deriving DecidableEq, Repr

/-- `User.findById`: first document with the given `_id`. -/
def findById (uid : Nat) (db : DB) : Option UserDoc :=
  db.users.find? (fun d => d._id == uid)

/-- A JS whitespace character as far as `String.prototype.trim` is
concerned (restricted to the ASCII ones). -/
def isJsWhitespace (c : Char) : Bool :=
  c == ' ' || c == '\t' || c == '\n' || c == '\r'

/-- JS `s.trim()`: strip whitespace from both ends (embedded as a
structural recursion over the character list). -/
def jsTrim (s : String) : String :=
  ⟨((s.data.dropWhile isJsWhitespace).reverse.dropWhile isJsWhitespace).reverse⟩

/-- JS `s.toLowerCase()` on one character (ASCII range). -/
def lowerChar (c : Char) : Char :=
  if 'A' ≤ c && c ≤ 'Z' then Char.ofNat (c.toNat + 32) else c

/-- JS `s.toLowerCase()` (ASCII range). -/
def jsToLower (s : String) : String :=
  ⟨s.data.map lowerChar⟩

/-- JS `field?.trim() === ""` (line 99): `undefined?.trim()` is
`undefined`, which is not `""`, so an absent field makes this `false`. -/
def jsBlank : Option String → Bool
  | none => false
  | some s => jsTrim s == ""

/-- JS truthiness of a string-or-undefined value: `undefined` and `""`
are falsy. -/
def jsTruthy : Option String → Bool
  | none => false
  | some s => s != ""

/-- Modelled from the spec: the password-hash-verification capability of
the record (`isPasswordCorrect`, defined in the user model file, which is
absent from the sources). Hashing is abstracted away: the stored value
stands for the hash of itself, and verification is equality. -/
def isPasswordCorrect (u : UserDoc) (p : String) : Bool :=
  u.password == some p

/-- `.select("-password -refreshToken")`: the sanitised copy of a user
document returned to clients. -/
def sanitize (u : UserDoc) : UserDoc :=
  { u with password := none, refreshToken := none }

/-- The pair returned by `generateAccessAndRefreshTokens`. -/
structure TokenPair where
  accessToken : Token
  refreshToken : Token
  deriving DecidableEq, Repr

/-- `generateAccessAndRefreshTokens` (lines 79-91): loads the user, mints
an access and a refresh token, persists the refresh token into the user's
single-slot field (`user.save`), and returns both. If the user cannot be
loaded, the method calls inside the `try` throw, and the `catch` rethrows
`ApiError(500, "Error generating tokens")`. The freshness of the two
tokens (their `iat`) is modelled by the state's `tokenCtr`. -/
def generateAccessAndRefreshTokens (userId : Nat) (db : DB) :
    Except (Nat × String) (TokenPair × DB) :=
  match findById userId db with
  | none => .error (500, "Error generating tokens")
  | some _ =>
    let accessToken : Token := ⟨userId, db.tokenCtr, ACCESS_TOKEN_SECRET⟩
    let refreshToken : Token := ⟨userId, db.tokenCtr + 1, REFRESH_TOKEN_SECRET⟩
    let users := db.users.map fun d =>
      if d._id == userId then { d with refreshToken := some refreshToken } else d
    .ok (⟨accessToken, refreshToken⟩,
         { db with users := users, tokenCtr := db.tokenCtr + 2 })

/-- The `req.files` object of a multipart registration request: each key
is present iff at least that form field appeared, and holds the list of
uploaded files (each reduced to its `path`). -/
structure RegFiles where
  avatar : Option (List String) := none
  coverImage : Option (List String) := none
  deriving DecidableEq, Repr

/-- `req.files?.avatar[0]?.path` (lines 113-114): optional chaining only
guards `req.files`; if the selected key is absent, indexing `undefined`
with `[0]` throws a `TypeError`. An empty file list yields `undefined`
without throwing. -/
def extractFirstPath (files : Option RegFiles)
    (sel : RegFiles → Option (List String)) : Except String (Option String) :=
  match files with
  | none => .ok none
  | some fs =>
    match sel fs with
    | none => .error "TypeError: cannot read 0 of undefined"
    | some l => .ok (l.get? 0)

/-- Modelled from the spec: the Asset Uploader boundary
`upload(localPath) -> {url} | failure` (`cloudinary.js` is not in the
sources). Called with an absent local path it fails without reaching the
remote host; `up` is the remote host's behaviour on an actual path. -/
def runUpload (up : String → Option String) : Option String → Option String
  | none => none
  | some p => up p

/-- Matching one `{ field: value }` condition of the duplicate-check
query (line 104) against a stored document field: the request value is
compared exactly as given (no case normalisation). An absent request
value is treated as matching nothing; the store's semantics for an
`undefined` query value is outside the sources. -/
def queryEq (field : Option String) (q : Option String) : Bool :=
  match q with
  | none => false
  | some s => field == some s

/-- Body of a registration request. -/
structure RegisterReq where
  fullname : Option String := none
  username : Option String := none
  email : Option String := none
  password : Option String := none
  files : Option RegFiles := none
  deriving Repr

/-- What `registerUser` hands back. -/
inductive RegOutcome where
  | created (user : UserDoc)
  | apiError (status : Nat) (msg : String)
  | jsError (msg : String)
  deriving DecidableEq, Repr

/-- Outcome of `registerUser` together with the list of local paths that
were actually sent to the remote asset host (in call order) and the store
state afterwards. -/
structure RegResult where
  outcome : RegOutcome
  uploads : List String
  db : DB
  deriving Repr

/-- `registerUser` (lines 93-148): validates the four text fields with
the blank check of line 99, looks for an existing user by the raw
`username`/`email` values (line 104), extracts the two file paths
(lines 113-114, which can throw), requires the avatar path, uploads the
avatar and then the cover image, requires the avatar upload to have
succeeded, and creates the document — `fullName` from `fullname`,
`userName` and `email` lowercased (`.toLowerCase()` throws on an absent
field), `coverImage` defaulted to `""` by `coverImage?.url || ""` — then
re-reads and sanitises it for the response. -/
def registerUser (up : String → Option String) (req : RegisterReq)
    (db : DB) : RegResult :=
  if jsBlank req.fullname || jsBlank req.username || jsBlank req.email ||
      jsBlank req.password then
    ⟨.apiError 400 "All fields are required", [], db⟩
  else
    match db.users.find? (fun d =>
        queryEq d.username req.username || queryEq d.email req.email) with
    | some _ => ⟨.apiError 409 "User with email or username already exists", [], db⟩
    | none =>
      match extractFirstPath req.files (fun fs => fs.avatar) with
      | .error e => ⟨.jsError e, [], db⟩
      | .ok avatarLocalPath =>
        match extractFirstPath req.files (fun fs => fs.coverImage) with
        | .error e => ⟨.jsError e, [], db⟩
        | .ok coverImageLocalPath =>
          match avatarLocalPath with
          | none => ⟨.apiError 400 "Avatar file is required", [], db⟩
          | some ap =>
            let avatar := runUpload up (some ap)
            let coverImage := runUpload up coverImageLocalPath
            let uploads := ap :: coverImageLocalPath.toList
            if avatar.isNone then
              ⟨.apiError 400 "Error uploading avatar file to cloudinary", uploads, db⟩
            else
              match req.username, req.email with
              | some un, some em =>
                let user : UserDoc :=
                  { _id := db.nextId
                    fullName := req.fullname
                    userName := some (jsToLower un)
                    username := none
                    email := some (jsToLower em)
                    password := req.password
                    avatar := avatar
                    coverImage := some (coverImage.getD "")
                    refreshToken := none }
                let db1 : DB :=
                  { db with users := db.users ++ [user], nextId := db.nextId + 1 }
                match findById user._id db1 with
                | none => ⟨.apiError 500 "Error creating user in the database", uploads, db1⟩
                | some createdUser => ⟨.created (sanitize createdUser), uploads, db1⟩
              | _, _ => ⟨.jsError "TypeError: toLowerCase of undefined", uploads, db⟩

/-- Body of a login request. -/
structure LoginReq where
  email : Option String := none
  password : Option String := none
  deriving Repr

/-- What `loginUser` hands back: on success the (possibly re-read)
sanitised user and the two freshly issued tokens, which are also set as
the `accessToken` / `refreshToken` cookies. -/
inductive LoginOutcome where
  | ok (user : Option UserDoc) (accessToken refreshToken : Token)
  | apiError (status : Nat) (msg : String)
  deriving DecidableEq, Repr

/-- Outcome of `loginUser` together with the store state afterwards. -/
structure LoginResult where
  outcome : LoginOutcome
  db : DB
  deriving Repr

/-- `loginUser` (lines 150-175): requires truthy email and password,
looks the user up by raw email, verifies the password, awaits
`generateAccessAndRefreshTokens`, re-reads the sanitised user, and
answers with the user and both tokens (body and cookies). -/
def loginUser (req : LoginReq) (db : DB) : LoginResult :=
  match req.email, req.password with
  | some em, some pw =>
    if em == "" || pw == "" then
      ⟨.apiError 400 "Email and password are required", db⟩
    else
      match db.users.find? (fun d => d.email == some em) with
      | none => ⟨.apiError 404 "User with email does not exist", db⟩
      | some user =>
        if !(isPasswordCorrect user pw) then
          ⟨.apiError 401 "Password is incorrect", db⟩
        else
          match generateAccessAndRefreshTokens user._id db with
          | .error (s, m) => ⟨.apiError s m, db⟩
          | .ok (pair, db1) =>
            let loggedInUser := (findById user._id db1).map sanitize
            ⟨.ok loggedInUser pair.accessToken pair.refreshToken, db1⟩
  | _, _ => ⟨.apiError 400 "Email and password are required", db⟩

/-- A non-error handler response or a thrown `ApiError` envelope. -/
inductive SimpleOutcome where
  | ok (status : Nat) (msg : String)
  | apiError (status : Nat) (msg : String)
  deriving DecidableEq, Repr

/-- `logoutUser` (lines 178-194): for the already-authenticated caller,
`findByIdAndUpdate` with `$set: { refreshToken: undefined }`, i.e. the
stored refresh token is cleared (absence of a field is `undefined`), then
both cookies are cleared and a 200 envelope is returned. The update is
not awaited; it is modelled as having completed by the time the state is
next observed. There is no error path in the handler. -/
def logoutUser (userId : Nat) (db : DB) : SimpleOutcome × DB :=
  let users := db.users.map fun d =>
    if d._id == userId then { d with refreshToken := none } else d
  (.ok 200 "User logged out successfully", { db with users := users })

/-- A token-refresh request: the token arrives in the `refreshToken`
cookie or in the body (`req.cookies.refreshToken || req.body.refreshToken`,
line 197). -/
structure RefreshReq where
  cookieToken : Option Token := none
  bodyToken : Option Token := none
  deriving Repr

/-- An error arising inside the guarded block of `refreshAccessToken`:
either the JWT library threw during `jwt.verify`, or one of the two
`ApiError`s of lines 206/208 was thrown. -/
inductive TryErr where
  | jwtError (msg : String)
  | thrown (status : Nat) (msg : String)
  deriving DecidableEq, Repr

/-- What `refreshAccessToken` hands back. `ok` carries the two values
placed in the response body and the two cookies; `noResponse` is the path
where the handler returns without sending anything at all. -/
inductive RefreshOutcome where
  | ok (accessToken refreshToken : Option Token)
  | apiError (status : Nat) (msg : String)
  | noResponse
  deriving DecidableEq, Repr

/-- Outcome of `refreshAccessToken` together with the store state
afterwards. -/
structure RefreshResult where
  outcome : RefreshOutcome
  db : DB
  deriving Repr

/-- The `try` block of `refreshAccessToken` (lines 201-220): verify the
presented token against `REFRESH_TOKEN_SECRET`, resolve the decoded
`_id` to a user (else throw 401 "Invalid Refresh Token"), require the
presented token to equal the stored one byte-exactly (else throw 401
"Refresh token is expired or used"). On success the source calls
`generateAccessAndRefreshTokens(user._id)` WITHOUT `await` (line 210):
destructuring the promise yields `undefined` for both `accessToken` and
`refreshToken`, so the response carries no tokens, while the rotation the
promise performs is modelled as having completed before the state is next
observed (were the promise to reject, the rejection is unhandled and the
state is left unchanged). -/
def refreshTry (incomingRefreshToken : Token) (db : DB) :
    Except TryErr ((Option Token × Option Token) × DB) :=
  match jwtVerify incomingRefreshToken REFRESH_TOKEN_SECRET with
  | none => .error (.jwtError "invalid signature")
  | some decodedToken =>
    match findById decodedToken._id db with
    | none => .error (.thrown 401 "Invalid Refresh Token")
    | some user =>
      if user.refreshToken != some incomingRefreshToken then
        .error (.thrown 401 "Refresh token is expired or used")
      else
        match generateAccessAndRefreshTokens user._id db with
        | .ok (_, db1) => .ok ((none, none), db1)
        | .error _ => .ok ((none, none), db)

/-- `refreshAccessToken` (lines 196-224): a missing incoming token is a
401 thrown before the `try` and so reaches the caller; any error raised
inside the guarded block is caught by the `catch` (lines 221-223), which
constructs `new ApiError(400, ...)` and discards it — nothing is
re-thrown and no response is sent, so that path yields `noResponse`. -/
def refreshAccessToken (req : RefreshReq) (db : DB) : RefreshResult :=
  match req.cookieToken.orElse (fun _ => req.bodyToken) with
  | none => ⟨.apiError 401 "Error: Did not receive refresh token", db⟩
  | some incomingRefreshToken =>
    match refreshTry incomingRefreshToken db with
    | .ok (pair, db1) => ⟨.ok pair.1 pair.2, db1⟩
    | .error _ => ⟨.noResponse, db⟩

/-- Body of a change-password request. -/
structure ChangePasswordReq where
  oldPassword : Option String := none
  newPassword : Option String := none
  deriving Repr

/-- `changePassword` (lines 226-246): requires truthy old and new
passwords, resolves the authenticated caller's record, verifies the old
password, assigns the new password to the record's password field, and
saves. (`user.save` on line 241 is not awaited; the write is modelled as
having completed by the time the state is next observed. The re-hash the
store layer performs on save is outside the sources and abstracted away
as with `isPasswordCorrect`.) -/
def changePassword (userId : Nat) (req : ChangePasswordReq) (db : DB) :
    SimpleOutcome × DB :=
  match req.oldPassword, req.newPassword with
  | some op, some np =>
    if op == "" || np == "" then
      (.apiError 400 "Old and new password are required", db)
    else
      match findById userId db with
      | none => (.apiError 404 "User not found", db)
      | some user =>
        if !(isPasswordCorrect user op) then
          (.apiError 401 "Old password is incorrect", db)
        else
          let users := db.users.map fun d =>
            if d._id == userId then { d with password := some np } else d
          (.ok 200 "Password changed successfully", { db with users := users })
  | _, _ => (.apiError 400 "Old and new password are required", db)

/-- One row produced by the channel-profile aggregation after its
`$project` stage (line 360): the projected document fields plus the three
derived fields. -/
structure ChannelProfile where
  fullName : Option String
  username : Option String
  subscribersCount : Nat
  channelsSubscribedToCount : Nat
  isSubscribed : Bool
  avatar : Option String
  coverImage : Option String
  email : Option String
  deriving DecidableEq, Repr

/-- The aggregation pipeline of `getUserChannelProfile` (lines 320-372):
`$match` on the `username` key against the lowercased request username;
two `$lookup`s into the subscription collection (edges where the matched
document is the `channel`, resp. the `subscriber`); `$addFields` with the
two `$size` counts and the `$in` membership test of the caller's id in
the subscriber-id list (`undefined` — an anonymous caller — is in no
list of ids); `$project` of the fixed field set. -/
def channelPipeline (username : String) (callerId : Option Nat) (db : DB) :
    List ChannelProfile :=
  (db.users.filter (fun d => d.username == some (jsToLower username))).map fun d =>
    let subscribers := db.subs.filter (fun s => s.channel == d._id)
    let subscribedTo := db.subs.filter (fun s => s.subscriber == d._id)
    { fullName := d.fullName
      username := d.username
      subscribersCount := subscribers.length
      channelsSubscribedToCount := subscribedTo.length
      isSubscribed :=
        match callerId with
        | some c => subscribers.any (fun s => s.subscriber == c)
        | none => false
      avatar := d.avatar
      coverImage := d.coverImage
      email := d.email }

/-- What `getUserChannelProfile` hands back. -/
inductive ProfileOutcome where
  | ok (profile : ChannelProfile)
  | apiError (status : Nat) (msg : String)
  deriving DecidableEq, Repr

/-- `getUserChannelProfile` (lines 313-383): `!username?.trim()` rejects
an absent or blank-after-trim path parameter with 400; the aggregation
runs with the (possibly absent) authenticated caller id; an empty result
is 404 "channel does not exists", otherwise the first row is returned. -/
def getUserChannelProfile (username : Option String) (callerId : Option Nat)
    (db : DB) : ProfileOutcome :=
  match username with
  | none => .apiError 400 "username is missing"
  | some u =>
    if jsTrim u == "" then .apiError 400 "username is missing"
    else
      match channelPipeline u callerId db with
      | [] => .apiError 404 "channel does not exists"
      | p :: _ => .ok p

/-! Helper lemmas -/

/-- Updating the documents with a given `_id` in place commutes with
`find?` by that `_id`, provided the update preserves `_id`. -/
theorem find?_map_update (l : List UserDoc) (uid : Nat) (f : UserDoc → UserDoc)
    (hid : ∀ d, (f d)._id = d._id) :
    (l.map (fun d => if d._id == uid then f d else d)).find?
        (fun d => d._id == uid) =
      (l.find? (fun d => d._id == uid)).map f := by
  induction l with
  | nil => rfl
  | cons a l ih =>
    by_cases h : (a._id == uid) = true
    · simp only [List.map_cons, List.find?_cons, if_pos h]
      rw [hid a, h]
      rfl
    · have h' : (a._id == uid) = false := by simpa using h
      simp only [List.map_cons, List.find?_cons, if_neg h]
      rw [h']
      exact ih

/-- Proof abbreviation: the per-document update that
`generateAccessAndRefreshTokens uid` performs when saving the freshly
minted refresh token (counter value `ctr` at the time of minting). -/
def rotateDoc (uid ctr : Nat) (d : UserDoc) : UserDoc :=
  if d._id == uid then
    { d with refreshToken := some (Token.mk uid (ctr + 1) REFRESH_TOKEN_SECRET) }
  else d

/-- Proof abbreviation: the store after
`generateAccessAndRefreshTokens uid` has persisted the rotation. -/
def rotateDB (uid : Nat) (db : DB) : DB :=
  { db with users := db.users.map (rotateDoc uid db.tokenCtr),
            tokenCtr := db.tokenCtr + 2 }

/-- `generateAccessAndRefreshTokens` on a resolvable user id mints the two
tokens at the current counter and persists the rotation. -/
theorem generateTokens_eq (uid : Nat) (db : DB) (u : UserDoc)
    (hfind : findById uid db = some u) :
    generateAccessAndRefreshTokens uid db =
      Except.ok (TokenPair.mk (Token.mk uid db.tokenCtr ACCESS_TOKEN_SECRET)
          (Token.mk uid (db.tokenCtr + 1) REFRESH_TOKEN_SECRET),
        rotateDB uid db) := by
  unfold generateAccessAndRefreshTokens rotateDB rotateDoc
  rw [hfind]

/-! Claim theorems -/

/-- Claim C3: For every refresh call whose guarded block fails (bad
signature, unresolvable subject, or stored-token mismatch — any
`refreshTry` error), the handler catches the error, constructs an
`ApiError` and discards it: the outcome is `noResponse` (nothing is
re-raised and no error envelope is returned) and the store is left as it
was. -/
theorem c3_refresh_failure_discarded (req : RefreshReq) (db : DB)
    (t : Token) (e : TryErr)
    (hreq : req.cookieToken.orElse (fun _ => req.bodyToken) = some t)
    (herr : refreshTry t db = .error e) :
    (refreshAccessToken req db).outcome = RefreshOutcome.noResponse ∧
    (refreshAccessToken req db).db = db := by
  simp [refreshAccessToken, hreq, herr]

/-- Witness for C3: a token signed with the wrong secret is rejected
inside the guarded block, and the handler answers with no response. -/
theorem c3_refresh_failure_discarded_witness :
    (refreshAccessToken ⟨some ⟨1, 0, "bad"⟩, none⟩ {}).outcome =
        RefreshOutcome.noResponse ∧
    (refreshAccessToken ⟨some ⟨1, 0, "bad"⟩, none⟩ {}).db = {} :=
  c3_refresh_failure_discarded ⟨some ⟨1, 0, "bad"⟩, none⟩ {} ⟨1, 0, "bad"⟩
    (.jwtError "invalid signature") rfl rfl

/-- Claim C9: `logoutUser` is idempotent: both of two consecutive calls
answer with the 200 envelope (the handler has no error path), after the
first call every document with the caller's id has an absent refresh
token, and the second call leaves the store exactly as the first left
it. -/
theorem c9_logout_idempotent (userId : Nat) (db : DB) :
    (logoutUser userId db).1 = SimpleOutcome.ok 200 "User logged out successfully" ∧
    (logoutUser userId (logoutUser userId db).2).1 =
      SimpleOutcome.ok 200 "User logged out successfully" ∧
    (∀ u ∈ (logoutUser userId db).2.users, u._id = userId → u.refreshToken = none) ∧
    (logoutUser userId (logoutUser userId db).2).2 = (logoutUser userId db).2 := by
  refine ⟨rfl, rfl, ?_, ?_⟩
  · intro u hu hid
    simp only [logoutUser, List.mem_map] at hu
    obtain ⟨d, _, rfl⟩ := hu
    by_cases h : (d._id == userId) = true
    · simp [h]
    · simp only [if_neg h] at hid ⊢
      exact absurd (by simp [hid]) h
  · simp only [logoutUser, List.map_map]
    refine congrArg (fun l => DB.mk l db.subs db.nextId db.tokenCtr) ?_
    apply List.map_congr_left
    intro d _
    by_cases h : (d._id == userId) = true
    · simp [Function.comp, h]
    · simp [Function.comp, h]

/-- Claim C10: Frame property of `changePassword`: when the old and new
passwords are present and non-empty, the caller's record resolves, and
the old password verifies, the call answers 200 and the only change to
the store is the caller's password field; in particular every document's
refresh token (keyed by `_id`) is exactly as before, so a session issued
before the change is still the stored one afterwards. -/
theorem c10_change_password_frame (userId : Nat) (db : DB) (u : UserDoc)
    (op np : String) (hop : op ≠ "") (hnp : np ≠ "")
    (hfind : findById userId db = some u)
    (hpw : isPasswordCorrect u op = true) :
    (changePassword userId ⟨some op, some np⟩ db).1 =
      SimpleOutcome.ok 200 "Password changed successfully" ∧
    (changePassword userId ⟨some op, some np⟩ db).2 =
      { db with users := db.users.map fun d =>
          if d._id == userId then { d with password := some np } else d } ∧
    (changePassword userId ⟨some op, some np⟩ db).2.users.map
        (fun d => (d._id, d.refreshToken)) =
      db.users.map (fun d => (d._id, d.refreshToken)) := by
  have hcond : (op == "" || np == "") = false := by simp [hop, hnp]
  refine ⟨?_, ?_, ?_⟩
  · simp [changePassword, hcond, hfind, hpw]
  · simp [changePassword, hcond, hfind, hpw]
  · simp only [changePassword, hcond, Bool.false_eq_true, if_false, hfind, hpw,
      Bool.not_true, List.map_map]
    apply List.map_congr_left
    intro d _
    by_cases h : (d._id == userId) = true
    · simp [Function.comp, h]
    · simp [Function.comp, h]

/-- Witness for C10: a concrete user changes their password; the store
afterwards differs only in that password field and the stored refresh
token is untouched. -/
theorem c10_change_password_frame_witness :
    (changePassword 7 ⟨some "old-pw", some "new-pw"⟩
        ⟨[{ _id := 7, password := some "old-pw",
            refreshToken := some ⟨7, 3, REFRESH_TOKEN_SECRET⟩ }], [], 8, 5⟩).1 =
      SimpleOutcome.ok 200 "Password changed successfully" ∧
    (changePassword 7 ⟨some "old-pw", some "new-pw"⟩
        ⟨[{ _id := 7, password := some "old-pw",
            refreshToken := some ⟨7, 3, REFRESH_TOKEN_SECRET⟩ }], [], 8, 5⟩).2 =
      ⟨[{ _id := 7, password := some "new-pw",
          refreshToken := some ⟨7, 3, REFRESH_TOKEN_SECRET⟩ }], [], 8, 5⟩ ∧
    (changePassword 7 ⟨some "old-pw", some "new-pw"⟩
        ⟨[{ _id := 7, password := some "old-pw",
            refreshToken := some ⟨7, 3, REFRESH_TOKEN_SECRET⟩ }], [], 8, 5⟩).2.users.map
        (fun d => (d._id, d.refreshToken)) =
      [(7, some ⟨7, 3, REFRESH_TOKEN_SECRET⟩)] :=
  c10_change_password_frame 7
    ⟨[{ _id := 7, password := some "old-pw",
        refreshToken := some ⟨7, 3, REFRESH_TOKEN_SECRET⟩ }], [], 8, 5⟩
    { _id := 7, password := some "old-pw",
      refreshToken := some ⟨7, 3, REFRESH_TOKEN_SECRET⟩ }
    "old-pw" "new-pw" (by decide) (by decide) rfl rfl

/-- Claim C4 (amended): For every registration request in which one of the
four required fields is present but blank after trimming, `registerUser`
fails with the 400 client-input error, performs no store write and calls
the Asset Uploader on nothing. (A field that is absent altogether is not
caught by this check: `undefined?.trim() === ""` is false.) -/
theorem c4_blank_field_rejected (up : String → Option String)
    (req : RegisterReq) (db : DB)
    (h : jsBlank req.fullname = true ∨ jsBlank req.username = true ∨
         jsBlank req.email = true ∨ jsBlank req.password = true) :
    (registerUser up req db).outcome =
      RegOutcome.apiError 400 "All fields are required" ∧
    (registerUser up req db).db = db ∧
    (registerUser up req db).uploads = [] := by
  have hb : (jsBlank req.fullname || jsBlank req.username ||
      jsBlank req.email || jsBlank req.password) = true := by
    rcases h with h | h | h | h <;> simp [h]
  refine ⟨?_, ?_, ?_⟩ <;> simp [registerUser, hb]

/-- Witness for C4 (amended): a username of three spaces is rejected with
the 400 error and nothing is written or uploaded. -/
theorem c4_blank_field_rejected_witness :
    (registerUser (fun p => some (p ++ ".url"))
        { fullname := some "Alice", username := some "   ",
          email := some "a@x.com", password := some "pw",
          files := some { avatar := some ["a.png"], coverImage := some ["c.png"] } }
        {}).outcome = RegOutcome.apiError 400 "All fields are required" ∧
    (registerUser (fun p => some (p ++ ".url"))
        { fullname := some "Alice", username := some "   ",
          email := some "a@x.com", password := some "pw",
          files := some { avatar := some ["a.png"], coverImage := some ["c.png"] } }
        {}).db = {} ∧
    (registerUser (fun p => some (p ++ ".url"))
        { fullname := some "Alice", username := some "   ",
          email := some "a@x.com", password := some "pw",
          files := some { avatar := some ["a.png"], coverImage := some ["c.png"] } }
        {}).uploads = [] :=
  c4_blank_field_rejected (fun p => some (p ++ ".url"))
    { fullname := some "Alice", username := some "   ",
      email := some "a@x.com", password := some "pw",
      files := some { avatar := some ["a.png"], coverImage := some ["c.png"] } }
    {} (Or.inr (Or.inl (by decide)))

/-- Counterexample to C4 as stated: a request whose `fullname` is ABSENT
(not merely blank) is not rejected by the validation — the check
`field?.trim() === ""` is false for `undefined` — so `registerUser` does
not fail with the 400 client-input error; it proceeds and (schema
validation of the store being outside the sources) writes a user
record. -/
theorem c4_absent_field_not_rejected :
    (registerUser (fun p => some (p ++ ".url"))
        { fullname := none, username := some "alice", email := some "a@x.com",
          password := some "pw",
          files := some { avatar := some ["a.png"], coverImage := some ["c.png"] } }
        {}).outcome ≠ RegOutcome.apiError 400 "All fields are required" ∧
    (registerUser (fun p => some (p ++ ".url"))
        { fullname := none, username := some "alice", email := some "a@x.com",
          password := some "pw",
          files := some { avatar := some ["a.png"], coverImage := some ["c.png"] } }
        {}).db.users.length = 1 := by
  exact ⟨by decide, by decide⟩

/-- Claim C8: For a username whose trimmed form is non-blank, resolving to
exactly one stored document, with no subscription edge naming that
document as channel or as subscriber, the profile query answers with
subscriber count 0, subscribed-to count 0 and `isSubscribed = false` for
an anonymous caller. -/
theorem c8_zero_subscriptions_profile (db : DB) (u : UserDoc) (q : String)
    (htrim : jsTrim q ≠ "")
    (hmem : u ∈ db.users)
    (hname : u.username = some (jsToLower q))
    (huniq : ∀ v ∈ db.users, v.username = some (jsToLower q) → v = u)
    (hch : ∀ s ∈ db.subs, s.channel ≠ u._id)
    (hsub : ∀ s ∈ db.subs, s.subscriber ≠ u._id) :
    getUserChannelProfile (some q) none db =
      ProfileOutcome.ok
        { fullName := u.fullName, username := u.username,
          subscribersCount := 0, channelsSubscribedToCount := 0,
          isSubscribed := false, avatar := u.avatar,
          coverImage := u.coverImage, email := u.email } := by
  have hq : (jsTrim q == "") = false := by simpa using htrim
  have hchf : db.subs.filter (fun s => s.channel == u._id) = [] := by
    rw [List.filter_eq_nil_iff]
    intro s hs
    simpa using hch s hs
  have hsubf : db.subs.filter (fun s => s.subscriber == u._id) = [] := by
    rw [List.filter_eq_nil_iff]
    intro s hs
    simpa using hsub s hs
  cases hF : db.users.filter (fun d => d.username == some (jsToLower q)) with
  | nil =>
    exfalso
    have hmemF : u ∈ db.users.filter (fun d => d.username == some (jsToLower q)) :=
      List.mem_filter.mpr ⟨hmem, by simp [hname]⟩
    rw [hF] at hmemF
    exact (List.not_mem_nil u) hmemF
  | cons a tl =>
    have haF : a ∈ db.users.filter (fun d => d.username == some (jsToLower q)) := by
      rw [hF]
      exact List.mem_cons_self a tl
    obtain ⟨haMem, haPred⟩ := List.mem_filter.mp haF
    have hau : a = u := huniq a haMem (by simpa using haPred)
    rw [hau] at hF
    simp only [getUserChannelProfile, channelPipeline, hq, Bool.false_eq_true,
      if_false, hF, List.map_cons]
    rw [hchf, hsubf]
    rfl

/-- Witness for C8: a store with one matching user and an empty
subscription collection. -/
theorem c8_zero_subscriptions_profile_witness :
    getUserChannelProfile (some "alice") none
      ⟨[{ _id := 5, fullName := some "Alice", username := some "alice",
          email := some "a@x.com" }], [], 6, 0⟩ =
      ProfileOutcome.ok
        { fullName := some "Alice", username := some "alice",
          subscribersCount := 0, channelsSubscribedToCount := 0,
          isSubscribed := false, avatar := none, coverImage := none,
          email := some "a@x.com" } :=
  c8_zero_subscriptions_profile
    ⟨[{ _id := 5, fullName := some "Alice", username := some "alice",
        email := some "a@x.com" }], [], 6, 0⟩
    { _id := 5, fullName := some "Alice", username := some "alice",
      email := some "a@x.com" }
    "alice" (by decide) (by decide) (by decide) (by decide) (by decide)
    (by decide)

/-- Claim C1 (amended): Rotation invalidates reuse, but the rejection is
swallowed: if a refresh call presenting the stored token T1 goes through
the success path (signature valid, subject resolves, T1 matches the
stored token; the store has only ever issued tokens with a nonce below
its counter), then the stored token is replaced by a fresh one, and a
second call presenting T1 has its guarded block raise the 401
authentication error "Refresh token is expired or used" — T1 no longer
byte-exactly matches — and issues no tokens; the handler's `catch` then
discards that error, so the second call yields no response rather than
an error envelope. -/
theorem c1_rotation_invalidates_reuse (db : DB) (u : UserDoc) (t1 : Token)
    (req : RefreshReq)
    (hreq : req.cookieToken.orElse (fun _ => req.bodyToken) = some t1)
    (hsecret : t1.secret = REFRESH_TOKEN_SECRET)
    (hfind : findById t1.uid db = some u)
    (hstored : u.refreshToken = some t1)
    (hfresh : t1.nonce < db.tokenCtr) :
    (refreshAccessToken req db).outcome = RefreshOutcome.ok none none ∧
    refreshTry t1 (refreshAccessToken req db).db =
      Except.error (TryErr.thrown 401 "Refresh token is expired or used") ∧
    (refreshAccessToken req (refreshAccessToken req db).db).outcome =
      RefreshOutcome.noResponse := by
  have huid : u._id = t1.uid := by
    have h := List.find?_some
      (show db.users.find? (fun d => d._id == t1.uid) = some u from hfind)
    simpa using h
  have hverify : jwtVerify t1 REFRESH_TOKEN_SECRET = some ⟨t1.uid⟩ := by
    simp [jwtVerify, hsecret]
  have hcond : (u.refreshToken != some t1) = false := by simp [hstored]
  have hgen : generateAccessAndRefreshTokens u._id db =
      Except.ok (TokenPair.mk (Token.mk t1.uid db.tokenCtr ACCESS_TOKEN_SECRET)
          (Token.mk t1.uid (db.tokenCtr + 1) REFRESH_TOKEN_SECRET),
        rotateDB t1.uid db) := by
    rw [huid]
    exact generateTokens_eq t1.uid db u hfind
  have h1 : refreshAccessToken req db =
      RefreshResult.mk (RefreshOutcome.ok none none) (rotateDB t1.uid db) := by
    simp [refreshAccessToken, hreq, refreshTry, hverify, hfind, hcond, hgen]
  have hfind2 : findById t1.uid (rotateDB t1.uid db) =
      some { u with refreshToken := some (Token.mk t1.uid (db.tokenCtr + 1) REFRESH_TOKEN_SECRET) } := by
    show (db.users.map (rotateDoc t1.uid db.tokenCtr)).find?
      (fun d => d._id == t1.uid) = _
    rw [show db.users.map (rotateDoc t1.uid db.tokenCtr) =
        db.users.map (fun d =>
          if d._id == t1.uid then
            { d with refreshToken := some (Token.mk t1.uid (db.tokenCtr + 1) REFRESH_TOKEN_SECRET) }
          else d) from rfl]
    rw [find?_map_update db.users t1.uid
      (fun d => { d with refreshToken := some (Token.mk t1.uid (db.tokenCtr + 1) REFRESH_TOKEN_SECRET) })
      (fun d => rfl)]
    rw [show db.users.find? (fun d => d._id == t1.uid) = some u from hfind]
    rfl
  have hne : some (Token.mk t1.uid (db.tokenCtr + 1) REFRESH_TOKEN_SECRET) ≠
      some t1 := by
    intro h
    have hn := congrArg Token.nonce (Option.some.inj h)
    simp only at hn
    omega
  have hneq2 : (({ u with refreshToken := some (Token.mk t1.uid (db.tokenCtr + 1) REFRESH_TOKEN_SECRET) } :
        UserDoc).refreshToken != some t1) = true := by
    simpa using hne
  have h3 : refreshTry t1 (rotateDB t1.uid db) =
      Except.error (TryErr.thrown 401 "Refresh token is expired or used") := by
    simp [refreshTry, hverify, hfind2, hneq2]
  refine ⟨?_, ?_, ?_⟩
  · rw [h1]
  · rw [h1]
    exact h3
  · rw [h1]
    simp [refreshAccessToken, hreq, h3]

/-- Witness for C1 (amended): a concrete store holding token T1; after
one successful refresh, replaying T1 trips the 401 inside the guarded
block and the handler answers with no response. -/
theorem c1_rotation_invalidates_reuse_witness :
    (refreshAccessToken ⟨some ⟨1, 0, REFRESH_TOKEN_SECRET⟩, none⟩
        ⟨[{ _id := 1, refreshToken := some ⟨1, 0, REFRESH_TOKEN_SECRET⟩ }],
          [], 2, 1⟩).outcome = RefreshOutcome.ok none none ∧
    refreshTry ⟨1, 0, REFRESH_TOKEN_SECRET⟩
      (refreshAccessToken ⟨some ⟨1, 0, REFRESH_TOKEN_SECRET⟩, none⟩
        ⟨[{ _id := 1, refreshToken := some ⟨1, 0, REFRESH_TOKEN_SECRET⟩ }],
          [], 2, 1⟩).db =
      Except.error (TryErr.thrown 401 "Refresh token is expired or used") ∧
    (refreshAccessToken ⟨some ⟨1, 0, REFRESH_TOKEN_SECRET⟩, none⟩
      (refreshAccessToken ⟨some ⟨1, 0, REFRESH_TOKEN_SECRET⟩, none⟩
        ⟨[{ _id := 1, refreshToken := some ⟨1, 0, REFRESH_TOKEN_SECRET⟩ }],
          [], 2, 1⟩).db).outcome = RefreshOutcome.noResponse :=
  c1_rotation_invalidates_reuse
    ⟨[{ _id := 1, refreshToken := some ⟨1, 0, REFRESH_TOKEN_SECRET⟩ }], [], 2, 1⟩
    { _id := 1, refreshToken := some ⟨1, 0, REFRESH_TOKEN_SECRET⟩ }
    ⟨1, 0, REFRESH_TOKEN_SECRET⟩
    ⟨some ⟨1, 0, REFRESH_TOKEN_SECRET⟩, none⟩
    rfl rfl rfl rfl (by decide)

/-- Whether a refresh outcome is an `ApiError` envelope (of any status),
i.e. the only way this handler "fails with an error" towards its
caller. -/
def RefreshOutcome.isApiError : RefreshOutcome → Bool
  | .apiError _ _ => true
  | _ => false

/-- Counterexample to C1 as stated: in a concrete store, after a first
`refreshAccessToken` call with the stored token T1 succeeds (rotating
the stored token), a second call presenting T1 does NOT fail with an
authentication error — it produces no error envelope at all (the
rejection raised inside the guarded block is caught and discarded), its
outcome being `noResponse`. -/
theorem c1_replay_yields_no_error_response :
    (refreshAccessToken ⟨some ⟨1, 0, REFRESH_TOKEN_SECRET⟩, none⟩
        ⟨[{ _id := 1, refreshToken := some ⟨1, 0, REFRESH_TOKEN_SECRET⟩ }],
          [], 2, 1⟩).outcome = RefreshOutcome.ok none none ∧
    (refreshAccessToken ⟨some ⟨1, 0, REFRESH_TOKEN_SECRET⟩, none⟩
      (refreshAccessToken ⟨some ⟨1, 0, REFRESH_TOKEN_SECRET⟩, none⟩
        ⟨[{ _id := 1, refreshToken := some ⟨1, 0, REFRESH_TOKEN_SECRET⟩ }],
          [], 2, 1⟩).db).outcome = RefreshOutcome.noResponse ∧
    ((refreshAccessToken ⟨some ⟨1, 0, REFRESH_TOKEN_SECRET⟩, none⟩
      (refreshAccessToken ⟨some ⟨1, 0, REFRESH_TOKEN_SECRET⟩, none⟩
        ⟨[{ _id := 1, refreshToken := some ⟨1, 0, REFRESH_TOKEN_SECRET⟩ }],
          [], 2, 1⟩).db).outcome).isApiError = false := by
  exact ⟨by decide, by decide, by decide⟩

/-- Claim C2 (code bug): On a refresh call that takes the success path in a
concrete store, the response's body and cookies carry NO tokens — both
are `undefined`, because line 210 destructures the un-awaited promise of
`generateAccessAndRefreshTokens` — even though the rotation itself is
performed (the stored refresh token changes to the freshly minted
one). -/
theorem c2_refresh_returns_undefined_tokens :
    (refreshAccessToken ⟨some ⟨1, 0, REFRESH_TOKEN_SECRET⟩, none⟩
        ⟨[{ _id := 1, refreshToken := some ⟨1, 0, REFRESH_TOKEN_SECRET⟩ }],
          [], 2, 1⟩).outcome = RefreshOutcome.ok none none ∧
    findById 1 (refreshAccessToken ⟨some ⟨1, 0, REFRESH_TOKEN_SECRET⟩, none⟩
        ⟨[{ _id := 1, refreshToken := some ⟨1, 0, REFRESH_TOKEN_SECRET⟩ }],
          [], 2, 1⟩).db =
      some { _id := 1, refreshToken := some ⟨1, 2, REFRESH_TOKEN_SECRET⟩ } := by
  exact ⟨by decide, by decide⟩

/-- Claim C5 (code bug): Registering a second user with the username that a
first registration already stored is NOT rejected with the 409 conflict,
and the Asset Uploader IS called: the duplicate query reads the
`username` key with the raw request value, while creation wrote the
lowercased name under the `userName` key, so no existing user is found
and a second record with the same `userName` is created. -/
theorem c5_duplicate_username_not_detected :
    (registerUser (fun p => some (p ++ ".url"))
        { fullname := some "Alice", username := some "alice",
          email := some "b@x.com", password := some "pw",
          files := some { avatar := some ["a2.png"], coverImage := some ["c2.png"] } }
        (registerUser (fun p => some (p ++ ".url"))
          { fullname := some "Alice", username := some "alice",
            email := some "a@x.com", password := some "pw",
            files := some { avatar := some ["a.png"], coverImage := some ["c.png"] } }
          {}).db).outcome =
      RegOutcome.created
        { _id := 1, fullName := some "Alice", userName := some "alice",
          username := none, email := some "b@x.com", password := none,
          avatar := some "a2.png.url", coverImage := some "c2.png.url",
          refreshToken := none } ∧
    (registerUser (fun p => some (p ++ ".url"))
        { fullname := some "Alice", username := some "alice",
          email := some "b@x.com", password := some "pw",
          files := some { avatar := some ["a2.png"], coverImage := some ["c2.png"] } }
        (registerUser (fun p => some (p ++ ".url"))
          { fullname := some "Alice", username := some "alice",
            email := some "a@x.com", password := some "pw",
            files := some { avatar := some ["a.png"], coverImage := some ["c.png"] } }
          {}).db).uploads = ["a2.png", "c2.png"] ∧
    (registerUser (fun p => some (p ++ ".url"))
        { fullname := some "Alice", username := some "alice",
          email := some "b@x.com", password := some "pw",
          files := some { avatar := some ["a2.png"], coverImage := some ["c2.png"] } }
        (registerUser (fun p => some (p ++ ".url"))
          { fullname := some "Alice", username := some "alice",
            email := some "a@x.com", password := some "pw",
            files := some { avatar := some ["a.png"], coverImage := some ["c.png"] } }
          {}).db).db.users.map UserDoc.userName = [some "alice", some "alice"] := by
  exact ⟨by decide, by decide, by decide⟩

/-- Claim C6 (code bug): A registration request that passes validation and
the duplicate check and supplies a valid avatar file but NO cover-image
file crashes: `req.files?.coverImage[0]?.path` indexes `undefined`,
throwing a `TypeError`, so `registerUser` fails (and neither uploads nor
writes anything) instead of proceeding with an empty cover-image
field. -/
theorem c6_missing_cover_image_crashes :
    (registerUser (fun p => some (p ++ ".url"))
        { fullname := some "Alice", username := some "alice",
          email := some "a@x.com", password := some "pw",
          files := some { avatar := some ["a.png"], coverImage := none } }
        {}).outcome = RegOutcome.jsError "TypeError: cannot read 0 of undefined" ∧
    (registerUser (fun p => some (p ++ ".url"))
        { fullname := some "Alice", username := some "alice",
          email := some "a@x.com", password := some "pw",
          files := some { avatar := some ["a.png"], coverImage := none } }
        {}).uploads = [] ∧
    (registerUser (fun p => some (p ++ ".url"))
        { fullname := some "Alice", username := some "alice",
          email := some "a@x.com", password := some "pw",
          files := some { avatar := some ["a.png"], coverImage := none } }
        {}).db = {} := by
  exact ⟨by decide, by decide, by decide⟩

/-- Claim C7 (code bug): A user created by `registerUser` with username
"alice" is NOT found by `getUserChannelProfile "alice"`: creation stored
the lowercased name under the `userName` key while the aggregation's
`$match` reads the `username` key, so the pipeline yields zero rows and
the profile request fails with 404. -/
theorem c7_registered_user_not_found_by_profile :
    (registerUser (fun p => some (p ++ ".url"))
        { fullname := some "Alice", username := some "alice",
          email := some "a@x.com", password := some "pw",
          files := some { avatar := some ["a.png"], coverImage := some ["c.png"] } }
        {}).outcome =
      RegOutcome.created
        { _id := 0, fullName := some "Alice", userName := some "alice",
          username := none, email := some "a@x.com", password := none,
          avatar := some "a.png.url", coverImage := some "c.png.url",
          refreshToken := none } ∧
    getUserChannelProfile (some "alice") none
      (registerUser (fun p => some (p ++ ".url"))
        { fullname := some "Alice", username := some "alice",
          email := some "a@x.com", password := some "pw",
          files := some { avatar := some ["a.png"], coverImage := some ["c.png"] } }
        {}).db = ProfileOutcome.apiError 404 "channel does not exists" := by
  exact ⟨by decide, by decide⟩

end UserController
